import Mathlib

/-!
Verification of the GitHub SLA tracker downtime engine
(`src/lib/sla-calculator.ts` and `src/lib/date-utils.ts`).

Timestamps are modelled as `Int` milliseconds since the Unix epoch (the
value of `Date.prototype.getTime`).  JavaScript numbers that carry
fractional minute/percentage values are modelled as exact rationals `ℚ`.
The ambient clock (`new Date()` with no argument) is modelled as an
explicit parameter `now : Int` threaded to the two places that consult it,
matching the fixed-clock mocking used by the repository's test suite.
-/

/-- One entry of `incident_updates`: the fields read by the calculator. -/
structure IncidentUpdate where
  status : String
  created_at : Int
  deriving Repr, DecidableEq

/-- One entry of `components` attached to an incident. -/
structure IncidentComponent where
  name : String
  deriving Repr, DecidableEq

/-- The `data` payload of a collection entry, restricted to the fields the
SLA calculator reads.  `started_at` and `resolved_at` are nullable in the
source and modelled with `Option`. -/
structure IncidentData where
  created_at : Int
  updated_at : Int
  started_at : Option Int
  resolved_at : Option Int
  status : String
  impact : String
  incident_updates : List IncidentUpdate
  components : List IncidentComponent
  deriving Repr, DecidableEq

/-- A content-collection incident entry (`CollectionEntry incidents`). -/
structure IncidentEntry where
  id : String
  data : IncidentData
  deriving Repr, DecidableEq

/-- Result record returned by `calculateComponentSLA`.  The `period`
strings of the source are modelled by the underlying instants. -/
structure SLAResult where
  componentName : String
  uptimePercentage : ℚ
  totalDowntimeMinutes : Int
  incidentCount : Nat
  slaViolation : Bool
  serviceCredit : Nat
  hasInsufficientData : Bool
  periodStart : Int
  periodEnd : Int
  deriving Repr, DecidableEq

/-- Coverage verdict returned by `hasDataCoverageForQuarter`. -/
structure Coverage where
  hasCoverage : Bool
  reason : String
  deriving Repr, DecidableEq

/-- `getImpactMultiplier` from `sla-calculator.ts` lines 35-47: a
string-keyed table with default `0.5` via nullish coalescing. -/
def getImpactMultiplier (impact : String) : ℚ :=
  if impact = "none" then 0
  else if impact = "minor" then 1/4
  else if impact = "major" then 3/4
  else if impact = "critical" then 1
  else if impact = "maintenance" then 0
  else 1/2

/-- `getIncidentEndTime` from `sla-calculator.ts` lines 53-77.  The source
checks the top-level `resolved_at` first, then scans `incident_updates`
for a `resolved` entry, then falls back to `updated_at` when the
top-level status is `resolved`, and finally to the current instant
(`new Date()`), modelled by the explicit `now` parameter. -/
def getIncidentEndTime (incident : IncidentEntry) (now : Int) : Int :=
  match incident.data.resolved_at with
  | some t => t
  | none =>
    match incident.data.incident_updates.find? (fun u => u.status == "resolved") with
    | some u => u.created_at
    | none =>
      if incident.data.status == "resolved" then incident.data.updated_at else now

/-- The incident-begin instant `started_at || created_at` used throughout
the calculator. -/
def incidentStartTime (incident : IncidentEntry) : Int :=
  incident.data.started_at.getD incident.data.created_at

/-- `filterIncidentsByDateRange` from `sla-calculator.ts` lines 122-131:
keeps incidents whose `created_at` lies in `[startDate, endDate]`. -/
def filterIncidentsByDateRange (incidents : List IncidentEntry)
    (startDate endDate : Int) : List IncidentEntry :=
  incidents.filter (fun incident =>
    decide (startDate ≤ incident.data.created_at) &&
    decide (incident.data.created_at ≤ endDate))

/-- `filterIncidentsByComponent` from `sla-calculator.ts` lines 136-143:
plain string equality on component names, no normalization. -/
def filterIncidentsByComponent (incidents : List IncidentEntry)
    (componentName : String) : List IncidentEntry :=
  incidents.filter (fun incident =>
    incident.data.components.any (fun c => c.name == componentName))

/-- Milliseconds per day. -/
def msPerDay : Int := 86400000

/-- `hasDataCoverageForQuarter` from `sla-calculator.ts` lines 154-188.
The source computes `ninetyDaysAgo` with `setDate(now.getDate() - 90)`;
under the fixed-offset civil calendar of this model, shifting the
day-of-month field by 90 is exactly a 90-day (`90 * msPerDay`) shift of
the instant. -/
def hasDataCoverageForQuarter (incidents : List IncidentEntry)
    (startDate endDate now : Int) : Coverage :=
  if now < startDate then
    { hasCoverage := false, reason := "Future quarter" }
  else
    let incidentsInPeriod := filterIncidentsByDateRange incidents startDate endDate
    if 0 < incidentsInPeriod.length then
      { hasCoverage := true, reason := "Has incidents" }
    else
      let ninetyDaysAgo := now - 90 * msPerDay
      if ninetyDaysAgo ≤ endDate then
        { hasCoverage := true, reason := "Recent quarter with no incidents (100% uptime)" }
      else
        { hasCoverage := false, reason := "Historical quarter before tracking began" }

/-!
Quarter calendar (`date-utils.ts`).  The source builds instants with
`new Date(year, month, 1, 0, 0, 0, 0)`, which normalizes an out-of-range
month index by rolling it into the year, then maps the civil date to an
instant.  The civil-to-instant map is the proleptic Gregorian
days-from-civil algorithm at a fixed UTC offset.
-/

/-- Days from the Unix epoch to civil date `(y, m, d)` with `m ∈ 1..12`,
proleptic Gregorian calendar. -/
def daysFromCivil (y m d : Int) : Int :=
  let y2 := if m ≤ 2 then y - 1 else y
  let era := y2.fdiv 400
  let yoe := y2 - era * 400
  let mp := if 2 < m then m - 3 else m + 9
  let doy := (153 * mp + 2).fdiv 5 + d - 1
  let doe := yoe * 365 + yoe.fdiv 4 - yoe.fdiv 100 + doy
  era * 146097 + doe - 719468

/-- JavaScript `Date` month normalization: `(year, monthIndex)` with any
integer month index rolls into `(year + ⌊month/12⌋, month mod 12)`. -/
def jsNormYearMonth (year month : Int) : Int × Int :=
  (year + month.fdiv 12, month.fmod 12)

/-- Instant of `new Date(year, month, 1, 0, 0, 0, 0)` (day 1, midnight) in
milliseconds, with JavaScript month rollover. -/
def mkMonthStartMs (year month : Int) : Int :=
  let p := jsNormYearMonth year month
  msPerDay * daysFromCivil p.1 (p.2 + 1) 1

/-- The `Quarter` union type `1 | 2 | 3 | 4` of `date-utils.ts`. -/
inductive Quarter
  | q1 | q2 | q3 | q4
  deriving Repr, DecidableEq

/-- Numeric value of a quarter. -/
def Quarter.toInt : Quarter → Int
  | .q1 => 1
  | .q2 => 2
  | .q3 => 3
  | .q4 => 4

/-- `getQuarterStart` from `date-utils.ts` lines 36-39. -/
def getQuarterStart (year : Int) (quarter : Quarter) : Int :=
  mkMonthStartMs year ((quarter.toInt - 1) * 3)

/-- `getQuarterEnd` from `date-utils.ts` lines 44-49: one millisecond
before the first instant of the next quarter. -/
def getQuarterEnd (year : Int) (quarter : Quarter) : Int :=
  mkMonthStartMs year (quarter.toInt * 3) - 1

/-- Successor quarter within the four-quarter cycle. -/
def nextQuarter : Quarter → Quarter
  | .q1 => .q2
  | .q2 => .q3
  | .q3 => .q4
  | .q4 => .q1

/-- Year carrying the successor quarter. -/
def nextQuarterYear (year : Int) : Quarter → Int
  | .q4 => year + 1
  | _ => year

/-- `getTotalMinutes` from `date-utils.ts` lines 199-204: exact
(unrounded) minutes between two instants. -/
def getTotalMinutes (startDate endDate : Int) : ℚ :=
  ((endDate : ℚ) - (startDate : ℚ)) / (1000 * 60)

/-!
Weighted downtime engine: the body of `calculateComponentSLA`
(`sla-calculator.ts` lines 193-305), factored into named pieces that
mirror the source's local steps.
-/

/-- Component test used inside `calculateComponentSLA` line 209: plain
string equality over the `components` array. -/
def affectsComponent (incident : IncidentEntry) (componentName : String) : Bool :=
  incident.data.components.any (fun c => c.name == componentName)

/-- The `relevantIncidents` filter of `calculateComponentSLA` lines
205-212: affects the component and `[incidentStart, incidentEnd)`
overlaps the window (`incidentStart < endDate && incidentEnd > startDate`). -/
def relevantIncidentsOf (incidents : List IncidentEntry) (componentName : String)
    (startDate endDate now : Int) : List IncidentEntry :=
  incidents.filter (fun incident =>
    affectsComponent incident componentName &&
    decide (incidentStartTime incident < endDate) &&
    decide (startDate < getIncidentEndTime incident now))

/-- The per-incident clamped start/end points pushed into `timePoints`
(lines 222-234), in iteration order. -/
def clampedPointsOf (relevant : List IncidentEntry) (startDate endDate now : Int) :
    List Int :=
  relevant.foldr (fun inc acc =>
    let clampedStart := max (incidentStartTime inc) startDate
    let clampedEnd := min (getIncidentEndTime inc now) endDate
    if clampedStart < clampedEnd then clampedStart :: clampedEnd :: acc else acc) []

/-- `timePoints` insertion order: `startDate`, `endDate`, then the clamped
incident points (lines 218-234).  The `Set` dedup is applied below. -/
def timePointsOf (relevant : List IncidentEntry) (startDate endDate now : Int) :
    List Int :=
  startDate :: endDate :: clampedPointsOf relevant startDate endDate now

/-- `sortedPoints` (line 236): the deduplicated time points in ascending
order (`Array.from(timePoints).sort((a, b) => a - b)`). -/
def sortedPointsOf (relevant : List IncidentEntry) (startDate endDate now : Int) :
    List Int :=
  List.insertionSort (· ≤ ·) (timePointsOf relevant startDate endDate now).dedup

/-- Midpoint-coverage test of lines 254-258: `start <= midPoint && end >= midPoint`. -/
def coversMid (incident : IncidentEntry) (now : Int) (mid : ℚ) : Bool :=
  decide ((incidentStartTime incident : ℚ) ≤ mid) &&
  decide (mid ≤ (getIncidentEndTime incident now : ℚ))

/-- The `maxImpact` accumulation loop of lines 251-262: fold over the
relevant incidents, taking the larger multiplier whenever the incident
covers the midpoint. -/
def maxImpactAt (relevant : List IncidentEntry) (now : Int) (mid : ℚ) : ℚ :=
  relevant.foldl (fun acc inc =>
    if coversMid inc now mid then max acc (getImpactMultiplier inc.data.impact)
    else acc) 0

/-- Sub-interval length in minutes, `(p2 - p1) / (1000 * 60)` (line 264). -/
def intervalLenMinutes (p1 p2 : Int) : ℚ :=
  ((p2 : ℚ) - (p1 : ℚ)) / (1000 * 60)

/-- Downtime accumulated for one consecutive breakpoint pair (lines
241-266): zero when the points coincide, otherwise the sub-interval
length times the maximum impact multiplier at the midpoint. -/
def intervalContribution (relevant : List IncidentEntry) (now : Int) (p1 p2 : Int) : ℚ :=
  if p1 = p2 then 0
  else intervalLenMinutes p1 p2 *
    maxImpactAt relevant now (((p1 : ℚ) + (p2 : ℚ)) / 2)

/-- The sweep loop of lines 241-266: sum of the contributions of all
consecutive breakpoint pairs. -/
def sweepDowntime (relevant : List IncidentEntry) (now : Int) : List Int → ℚ
  | p1 :: p2 :: rest =>
    intervalContribution relevant now p1 p2 + sweepDowntime relevant now (p2 :: rest)
  | _ => 0

/-- `totalWeightedDowntimeMinutes` as accumulated by `calculateComponentSLA`
for a given input. -/
def weightedDowntimeOf (incidents : List IncidentEntry) (componentName : String)
    (startDate endDate now : Int) : ℚ :=
  let relevant := relevantIncidentsOf incidents componentName startDate endDate now
  sweepDowntime relevant now (sortedPointsOf relevant startDate endDate now)

/-- `Math.round`: nearest integer, ties toward positive infinity. -/
def jsRound (x : ℚ) : Int := ⌊x + 1/2⌋

/-- `parseFloat(x.toFixed(4))`: round to four decimal places, ties away
from zero toward the larger value, modelled exactly over ℚ. -/
def round4 (x : ℚ) : ℚ := ((⌊x * 10000 + 1/2⌋ : Int) : ℚ) / 10000

/-- `calculateComponentSLA` from `sla-calculator.ts` lines 193-305. -/
def calculateComponentSLA (incidents : List IncidentEntry) (componentName : String)
    (startDate endDate now : Int) : SLAResult :=
  let cov := hasDataCoverageForQuarter incidents startDate endDate now
  let relevant := relevantIncidentsOf incidents componentName startDate endDate now
  let totalWeightedDowntimeMinutes :=
    sweepDowntime relevant now (sortedPointsOf relevant startDate endDate now)
  let totalMinutes := getTotalMinutes startDate endDate
  let effectiveDowntime := min totalWeightedDowntimeMinutes totalMinutes
  let rawUptimePercentage := ((totalMinutes - effectiveDowntime) / totalMinutes) * 100
  let uptimePercentage := round4 rawUptimePercentage
  let verdict : Bool × Nat :=
    if uptimePercentage < 99 then (true, 25)
    else if uptimePercentage < 999/10 then (true, 10)
    else (false, 0)
  { componentName := componentName
    uptimePercentage := uptimePercentage
    totalDowntimeMinutes := jsRound totalWeightedDowntimeMinutes
    incidentCount := relevant.length
    slaViolation := verdict.1
    serviceCredit := verdict.2
    hasInsufficientData := !cov.hasCoverage
    periodStart := startDate
    periodEnd := endDate }

/-!
Concrete incidents used to exercise the code at the regression inputs
described by the specification (wrong-year `resolved_at`, spurious
`and ` component-name token).
-/

/-- The corrupted-year incident of the regression case: created
2022-09-06T22:56Z, top-level `resolved_at` 2025-09-07T00:08Z (wrong
year), one `resolved` update at 2022-09-07T00:08Z (correct year). -/
def wrongYearIncident : IncidentEntry :=
  { id := "wl09fvhb20x8"
    data :=
      { created_at := 1662504960000
        updated_at := 1662504960000
        started_at := none
        resolved_at := some 1757203680000
        status := "resolved"
        impact := "minor"
        incident_updates :=
          [{ status := "resolved", created_at := 1662509280000 }]
        components := [{ name := "Pages" }] } }

/-- An incident whose only component name carries the spurious leading
`and ` token from upstream list joining. -/
def andPagesIncident : IncidentEntry :=
  { id := "k7bhmjkblcwp"
    data :=
      { created_at := 1712774460000
        updated_at := 1712775780000
        started_at := none
        resolved_at := some 1712775780000
        status := "resolved"
        impact := "major"
        incident_updates := []
        components := [{ name := "and Pages" }] } }

/-- Claim C1 (code_bug evidence): at the corrupted-year regression input
the resolver returns the top-level `resolved_at` (the wrong-year value
1757203680000, i.e. 2025-09-07T00:08Z), not the resolved update's
`created_at` (1662509280000, i.e. 2022-09-07T00:08Z), for every clock
value — the source checks `resolved_at` before scanning the updates. -/
theorem c1_code_uses_toplevel_resolvedAt_at_failing_input :
    ∀ now : Int,
      getIncidentEndTime wrongYearIncident now = 1757203680000 ∧
      getIncidentEndTime wrongYearIncident now ≠ 1662509280000 := by
  intro now
  constructor
  · rfl
  · intro h
    simp [getIncidentEndTime, wrongYearIncident] at h

/-- Claim C2 (code_bug evidence): the component matching in both
`filterIncidentsByComponent` and the `relevantIncidents` selection of
`calculateComponentSLA` is plain string equality, so the incident whose
component list is `["and Pages"]` never matches the tracked component
`"Pages"` — no normalization is applied. -/
theorem c2_code_component_match_is_plain_equality_at_failing_input :
    filterIncidentsByComponent [andPagesIncident] "Pages" = [] ∧
    relevantIncidentsOf [andPagesIncident] "Pages" 1712620800000 1719791999999 1719791999999 = [] ∧
    (calculateComponentSLA [andPagesIncident] "Pages"
        1712620800000 1719791999999 1719791999999).incidentCount = 0 := by
  refine ⟨rfl, rfl, rfl⟩

/-- Claim C3: consecutive quarters tile time exactly — the quarter end
plus one millisecond is the start of the following quarter (same year for
Q1-Q3, next year after Q4). -/
theorem c3_quarters_tile_time (year : Int) (q : Quarter) :
    getQuarterEnd year q + 1 = getQuarterStart (nextQuarterYear year q) (nextQuarter q) := by
  have h3d : (3 : Int).fdiv 12 = 0 := by decide
  have h3m : (3 : Int).fmod 12 = 3 := by decide
  have h6d : (6 : Int).fdiv 12 = 0 := by decide
  have h6m : (6 : Int).fmod 12 = 6 := by decide
  have h9d : (9 : Int).fdiv 12 = 0 := by decide
  have h9m : (9 : Int).fmod 12 = 9 := by decide
  have h12d : (12 : Int).fdiv 12 = 1 := by decide
  have h12m : (12 : Int).fmod 12 = 0 := by decide
  have h0d : (0 : Int).fdiv 12 = 0 := by decide
  have h0m : (0 : Int).fmod 12 = 0 := by decide
  cases q <;>
    simp [getQuarterEnd, getQuarterStart, nextQuarter, nextQuarterYear, Quarter.toInt,
      mkMonthStartMs, jsNormYearMonth, h3d, h3m, h6d, h6m, h9d, h9m, h12d, h12m, h0d, h0m]

/-!
Helper lemmas for the sweep-line engine: the `maxImpact` loop computes
the maximum (not the sum) of the multipliers of the covering incidents,
and every multiplier lies in `[0, 1]`.
-/

lemma getImpactMultiplier_nonneg (impact : String) : 0 ≤ getImpactMultiplier impact := by
  unfold getImpactMultiplier
  split_ifs <;> norm_num

lemma getImpactMultiplier_le_one (impact : String) : getImpactMultiplier impact ≤ 1 := by
  unfold getImpactMultiplier
  split_ifs <;> norm_num

lemma foldl_if_max_eq_filter_map {α : Type} (c : α → Bool) (m : α → ℚ) :
    ∀ (l : List α) (a : ℚ),
      l.foldl (fun acc x => if c x then max acc (m x) else acc) a
        = ((l.filter c).map m).foldl max a := by
  intro l
  induction l with
  | nil => intro a; rfl
  | cons x t ih =>
    intro a
    by_cases h : c x = true
    · simp [List.filter_cons, h, ih]
    · simp [List.filter_cons, h, ih]

lemma le_foldl_max_init : ∀ (l : List ℚ) (a : ℚ), a ≤ l.foldl max a := by
  intro l
  induction l with
  | nil => intro a; simp
  | cons x t ih =>
    intro a
    calc a ≤ max a x := le_max_left a x
    _ ≤ t.foldl max (max a x) := ih (max a x)

lemma mem_le_foldl_max (x : ℚ) : ∀ (l : List ℚ) (a : ℚ), x ∈ l → x ≤ l.foldl max a := by
  intro l
  induction l with
  | nil => intro a hx; cases hx
  | cons y t ih =>
    intro a hx
    rcases List.mem_cons.mp hx with h | h
    · subst h
      calc x ≤ max a x := le_max_right a x
      _ ≤ t.foldl max (max a x) := le_foldl_max_init t (max a x)
    · exact ih (max a y) h

lemma foldl_max_le_of_le (b : ℚ) :
    ∀ (l : List ℚ) (a : ℚ), a ≤ b → (∀ x ∈ l, x ≤ b) → l.foldl max a ≤ b := by
  intro l
  induction l with
  | nil => intro a ha _; simpa using ha
  | cons y t ih =>
    intro a ha hall
    refine ih (max a y) (max_le ha (hall y (by simp))) ?_
    intro x hx
    exact hall x (by simp [hx])

lemma maxImpactAt_eq_filter_map (relevant : List IncidentEntry) (now : Int) (mid : ℚ) :
    maxImpactAt relevant now mid
      = ((relevant.filter (fun i => coversMid i now mid)).map
          (fun i => getImpactMultiplier i.data.impact)).foldl max 0 := by
  unfold maxImpactAt
  exact foldl_if_max_eq_filter_map _ _ relevant 0

lemma maxImpactAt_nonneg (relevant : List IncidentEntry) (now : Int) (mid : ℚ) :
    0 ≤ maxImpactAt relevant now mid := by
  rw [maxImpactAt_eq_filter_map]
  exact le_foldl_max_init _ 0

lemma maxImpactAt_le_one (relevant : List IncidentEntry) (now : Int) (mid : ℚ) :
    maxImpactAt relevant now mid ≤ 1 := by
  rw [maxImpactAt_eq_filter_map]
  refine foldl_max_le_of_le 1 _ 0 (by norm_num) ?_
  intro x hx
  obtain ⟨i, _, hxi⟩ := List.mem_map.mp hx
  exact hxi ▸ getImpactMultiplier_le_one i.data.impact

/-- Claim C4: for a breakpoint pair `p1 ≤ p2`, the downtime accumulated by
the sweep for that sub-interval equals the sub-interval length times the
maximum (fold of `max`, not a sum) of the multipliers of the incidents
covering the midpoint; it is at least the weighted length of every single
covering incident (so the larger multiplier drives it) and never exceeds
the wall-clock length of the sub-interval. -/
theorem c4_subinterval_downtime_is_max_not_sum
    (relevant : List IncidentEntry) (now p1 p2 : Int) (h : p1 ≤ p2) :
    intervalContribution relevant now p1 p2
        = intervalLenMinutes p1 p2 *
          (((relevant.filter (fun i => coversMid i now (((p1 : ℚ) + (p2 : ℚ)) / 2))).map
              (fun i => getImpactMultiplier i.data.impact)).foldl max 0)
    ∧ (∀ i ∈ relevant, coversMid i now (((p1 : ℚ) + (p2 : ℚ)) / 2) = true →
        intervalLenMinutes p1 p2 * getImpactMultiplier i.data.impact
          ≤ intervalContribution relevant now p1 p2)
    ∧ intervalContribution relevant now p1 p2 ≤ intervalLenMinutes p1 p2 := by
  have hcast : (p1 : ℚ) ≤ (p2 : ℚ) := by exact_mod_cast h
  have hlen : 0 ≤ intervalLenMinutes p1 p2 := by
    unfold intervalLenMinutes
    apply div_nonneg (by linarith) (by norm_num)
  refine ⟨?_, ?_, ?_⟩
  · unfold intervalContribution
    by_cases hpq : p1 = p2
    · subst hpq
      rw [if_pos rfl]
      unfold intervalLenMinutes
      simp
    · rw [if_neg hpq, maxImpactAt_eq_filter_map]
  · intro i hi hc
    have hmax : getImpactMultiplier i.data.impact
        ≤ maxImpactAt relevant now (((p1 : ℚ) + (p2 : ℚ)) / 2) := by
      rw [maxImpactAt_eq_filter_map]
      refine mem_le_foldl_max _ _ 0 ?_
      exact List.mem_map.mpr ⟨i, List.mem_filter.mpr ⟨hi, hc⟩, rfl⟩
    unfold intervalContribution
    by_cases hpq : p1 = p2
    · subst hpq
      rw [if_pos rfl]
      unfold intervalLenMinutes
      simp
    · rw [if_neg hpq]
      exact mul_le_mul_of_nonneg_left hmax hlen
  · unfold intervalContribution
    by_cases hpq : p1 = p2
    · rw [if_pos hpq]
      exact hlen
    · rw [if_neg hpq]
      calc intervalLenMinutes p1 p2 * maxImpactAt relevant now (((p1 : ℚ) + (p2 : ℚ)) / 2)
          ≤ intervalLenMinutes p1 p2 * 1 :=
            mul_le_mul_of_nonneg_left (maxImpactAt_le_one _ _ _) hlen
      _ = intervalLenMinutes p1 p2 := mul_one _

/-- A resolved minor incident on Git Operations covering `[0, 7200000]`
(two hours from the epoch). -/
def minorTestIncident : IncidentEntry :=
  { id := "minor-1"
    data :=
      { created_at := 0
        updated_at := 0
        started_at := some 0
        resolved_at := some 7200000
        status := "resolved"
        impact := "minor"
        incident_updates := []
        components := [{ name := "Git Operations" }] } }

/-- A resolved major incident on Git Operations covering `[0, 3600000]`
(one hour from the epoch), overlapping `minorTestIncident`. -/
def majorTestIncident : IncidentEntry :=
  { id := "major-1"
    data :=
      { created_at := 0
        updated_at := 0
        started_at := some 0
        resolved_at := some 3600000
        status := "resolved"
        impact := "major"
        incident_updates := []
        components := [{ name := "Git Operations" }] } }

/-- Witness for C4 at a concrete overlapping pair of incidents: the
sub-interval contribution never exceeds the sub-interval length. -/
theorem c4_witness :
    intervalContribution [minorTestIncident, majorTestIncident] 0 0 3600000
      ≤ intervalLenMinutes 0 3600000 :=
  (c4_subinterval_downtime_is_max_not_sum
    [minorTestIncident, majorTestIncident] 0 0 3600000 (by decide)).2.2

/-- Claim C5: `uptimePercentage` equals the clamped-downtime formula
rounded to four decimal places, `slaViolation` holds exactly when that
rounded percentage is below `99.9`, and the service credit is `25` below
`99.0`, `10` in `[99.0, 99.9)` and `0` at or above `99.9`. -/
theorem c5_uptime_formula_and_credit_tiers
    (incidents : List IncidentEntry) (componentName : String) (sd ed now : Int) :
    (calculateComponentSLA incidents componentName sd ed now).uptimePercentage
        = round4 (((getTotalMinutes sd ed
              - min (weightedDowntimeOf incidents componentName sd ed now)
                  (getTotalMinutes sd ed))
            / getTotalMinutes sd ed) * 100)
    ∧ ((calculateComponentSLA incidents componentName sd ed now).slaViolation = true
        ↔ (calculateComponentSLA incidents componentName sd ed now).uptimePercentage
            < 999/10)
    ∧ (calculateComponentSLA incidents componentName sd ed now).serviceCredit
        = (if (calculateComponentSLA incidents componentName sd ed now).uptimePercentage
              < 99 then 25
           else if (calculateComponentSLA incidents componentName sd ed now).uptimePercentage
              < 999/10 then 10
           else 0) := by
  refine ⟨rfl, ?_, ?_⟩ <;>
    · simp only [calculateComponentSLA, weightedDowntimeOf]
      split_ifs with h1 h2 <;> simp_all <;> linarith

/-- Claim C7: the computation is deterministic — with identical arguments
and the same fixed clock value, two evaluations return identical
`SLAResult`s; the clock enters only as the explicit `now` parameter. -/
theorem c7_fixed_clock_determinism (incidents : List IncidentEntry)
    (componentName : String) (sd ed now1 now2 : Int) (h : now1 = now2) :
    calculateComponentSLA incidents componentName sd ed now1
      = calculateComponentSLA incidents componentName sd ed now2 := by
  rw [h]

/-- Witness for C7 at a concrete input with a still-open incident (no
`resolved_at`, no resolved update, status `investigating`). -/
theorem c7_witness :
    calculateComponentSLA
        [{ id := "open-1"
           data :=
             { created_at := 1000000
               updated_at := 1000000
               started_at := none
               resolved_at := none
               status := "investigating"
               impact := "critical"
               incident_updates := []
               components := [{ name := "Pages" }] } }]
        "Pages" 0 86400000 43200000
      = calculateComponentSLA
        [{ id := "open-1"
           data :=
             { created_at := 1000000
               updated_at := 1000000
               started_at := none
               resolved_at := none
               status := "investigating"
               impact := "critical"
               incident_updates := []
               components := [{ name := "Pages" }] } }]
        "Pages" 0 86400000 43200000 :=
  c7_fixed_clock_determinism _ "Pages" 0 86400000 43200000 43200000 rfl

/-- Claim C6: the coverage classifier follows the four-case cascade —
future quarter, has incidents in the window, quarter end within 90 days
of the clock, historical quarter before tracking began. -/
theorem c6_coverage_classifier_cases (incidents : List IncidentEntry)
    (ws we now : Int) :
    (now < ws →
        hasDataCoverageForQuarter incidents ws we now
          = { hasCoverage := false, reason := "Future quarter" })
    ∧ (¬ now < ws →
        (∃ i ∈ incidents, ws ≤ i.data.created_at ∧ i.data.created_at ≤ we) →
        hasDataCoverageForQuarter incidents ws we now
          = { hasCoverage := true, reason := "Has incidents" })
    ∧ (¬ now < ws →
        (∀ i ∈ incidents, ¬(ws ≤ i.data.created_at ∧ i.data.created_at ≤ we)) →
        now - 90 * msPerDay ≤ we →
        hasDataCoverageForQuarter incidents ws we now
          = { hasCoverage := true,
              reason := "Recent quarter with no incidents (100% uptime)" })
    ∧ (¬ now < ws →
        (∀ i ∈ incidents, ¬(ws ≤ i.data.created_at ∧ i.data.created_at ≤ we)) →
        ¬ now - 90 * msPerDay ≤ we →
        hasDataCoverageForQuarter incidents ws we now
          = { hasCoverage := false,
              reason := "Historical quarter before tracking began" }) := by
  have hempty : (∀ i ∈ incidents, ¬(ws ≤ i.data.created_at ∧ i.data.created_at ≤ we)) →
      filterIncidentsByDateRange incidents ws we = [] := by
    intro hall
    unfold filterIncidentsByDateRange
    rw [List.filter_eq_nil_iff]
    intro i hi
    have := hall i hi
    simp only [Bool.and_eq_true, decide_eq_true_eq]
    tauto
  refine ⟨?_, ?_, ?_, ?_⟩
  · intro h
    simp [hasDataCoverageForQuarter, h]
  · intro h hex
    obtain ⟨i, hi, h1, h2⟩ := hex
    have hmem : i ∈ filterIncidentsByDateRange incidents ws we := by
      unfold filterIncidentsByDateRange
      refine List.mem_filter.mpr ⟨hi, ?_⟩
      simp [h1, h2]
    have hlen : 0 < (filterIncidentsByDateRange incidents ws we).length :=
      List.length_pos_of_mem hmem
    simp [hasDataCoverageForQuarter, h, hlen]
  · intro h hall hrec
    have hlen : ¬ 0 < (filterIncidentsByDateRange incidents ws we).length := by
      rw [hempty hall]
      simp
    simp [hasDataCoverageForQuarter, h, hlen, hrec]
  · intro h hall hrec
    have hlen : ¬ 0 < (filterIncidentsByDateRange incidents ws we).length := by
      rw [hempty hall]
      simp
    simp [hasDataCoverageForQuarter, h, hlen, hrec]

/-- Witness for C6: an empty incident list with a window entirely in the
future of the clock is classified as a future quarter. -/
theorem c6_witness :
    hasDataCoverageForQuarter [] 100 200 50
      = { hasCoverage := false, reason := "Future quarter" } :=
  (c6_coverage_classifier_cases [] 100 200 50).1 (by decide)

/-- Claim C8: appending incidents whose creation time lies outside the
window and whose `[start, end)` interval does not overlap the window
leaves the `SLAResult` for that window unchanged. -/
theorem c8_stable_under_unrelated_growth (incidents extra : List IncidentEntry)
    (componentName : String) (ws we now : Int)
    (h : ∀ e ∈ extra,
        ¬(ws ≤ e.data.created_at ∧ e.data.created_at ≤ we) ∧
        ¬(incidentStartTime e < we ∧ ws < getIncidentEndTime e now)) :
    calculateComponentSLA (incidents ++ extra) componentName ws we now
      = calculateComponentSLA incidents componentName ws we now := by
  have hdr : filterIncidentsByDateRange (incidents ++ extra) ws we
      = filterIncidentsByDateRange incidents ws we := by
    unfold filterIncidentsByDateRange
    rw [List.filter_append]
    have hnil : extra.filter (fun incident =>
        decide (ws ≤ incident.data.created_at) &&
        decide (incident.data.created_at ≤ we)) = [] := by
      rw [List.filter_eq_nil_iff]
      intro e he
      have := (h e he).1
      simp only [Bool.and_eq_true, decide_eq_true_eq]
      tauto
    rw [hnil, List.append_nil]
  have hcov : hasDataCoverageForQuarter (incidents ++ extra) ws we now
      = hasDataCoverageForQuarter incidents ws we now := by
    unfold hasDataCoverageForQuarter
    rw [hdr]
  have hrel : relevantIncidentsOf (incidents ++ extra) componentName ws we now
      = relevantIncidentsOf incidents componentName ws we now := by
    unfold relevantIncidentsOf
    rw [List.filter_append]
    have hnil : extra.filter (fun incident =>
        affectsComponent incident componentName &&
        decide (incidentStartTime incident < we) &&
        decide (ws < getIncidentEndTime incident now)) = [] := by
      rw [List.filter_eq_nil_iff]
      intro e he
      have := (h e he).2
      simp only [Bool.and_eq_true, decide_eq_true_eq]
      tauto
    rw [hnil, List.append_nil]
  unfold calculateComponentSLA
  rw [hcov, hrel]

/-- An incident far outside the epoch-day window used in the C8 witness:
created and resolved long after the window. -/
def unrelatedTestIncident : IncidentEntry :=
  { id := "q3-1"
    data :=
      { created_at := 15000000000
        updated_at := 15003600000
        started_at := some 15000000000
        resolved_at := some 15003600000
        status := "resolved"
        impact := "critical"
        incident_updates := []
        components := [{ name := "Git Operations" }] } }

/-- Witness for C8: appending a far-away incident leaves the result for
the original window unchanged. -/
theorem c8_witness :
    calculateComponentSLA ([minorTestIncident] ++ [unrelatedTestIncident])
        "Git Operations" 0 86400000 86400000
      = calculateComponentSLA [minorTestIncident] "Git Operations" 0 86400000 86400000 :=
  c8_stable_under_unrelated_growth [minorTestIncident] [unrelatedTestIncident]
    "Git Operations" 0 86400000 86400000 (by decide)

/-!
Helper lemmas for the uptime bound: the sorted breakpoint list makes
every sub-interval contribution non-negative, and four-decimal rounding
preserves the `[0, 100]` range.
-/

lemma intervalLenMinutes_nonneg {p1 p2 : Int} (h : p1 ≤ p2) :
    0 ≤ intervalLenMinutes p1 p2 := by
  unfold intervalLenMinutes
  have : (p1 : ℚ) ≤ (p2 : ℚ) := by exact_mod_cast h
  apply div_nonneg (by linarith) (by norm_num)

lemma intervalContribution_nonneg (relevant : List IncidentEntry) (now : Int)
    {p1 p2 : Int} (h : p1 ≤ p2) :
    0 ≤ intervalContribution relevant now p1 p2 := by
  unfold intervalContribution
  split_ifs with hpq
  · exact le_refl 0
  · exact mul_nonneg (intervalLenMinutes_nonneg h) (maxImpactAt_nonneg _ _ _)

lemma sweepDowntime_nonneg (relevant : List IncidentEntry) (now : Int) :
    ∀ pts : List Int, pts.Sorted (· ≤ ·) → 0 ≤ sweepDowntime relevant now pts := by
  intro pts
  induction pts with
  | nil => intro _; simp [sweepDowntime]
  | cons p1 rest ih =>
    intro hs
    cases rest with
    | nil => simp [sweepDowntime]
    | cons p2 rest2 =>
      have h12 : p1 ≤ p2 := (List.pairwise_cons.mp hs).1 p2 (by simp)
      have htail := (List.pairwise_cons.mp hs).2
      simp only [sweepDowntime]
      exact add_nonneg (intervalContribution_nonneg relevant now h12) (ih htail)

lemma sorted_sortedPointsOf (relevant : List IncidentEntry) (sd ed now : Int) :
    (sortedPointsOf relevant sd ed now).Sorted (· ≤ ·) := by
  unfold sortedPointsOf
  exact List.sorted_insertionSort _ _

lemma weightedDowntimeOf_nonneg (incidents : List IncidentEntry)
    (componentName : String) (sd ed now : Int) :
    0 ≤ weightedDowntimeOf incidents componentName sd ed now := by
  unfold weightedDowntimeOf
  exact sweepDowntime_nonneg _ now _ (sorted_sortedPointsOf _ sd ed now)

lemma round4_nonneg {x : ℚ} (hx : 0 ≤ x) : 0 ≤ round4 x := by
  unfold round4
  apply div_nonneg _ (by norm_num)
  have h1 : (0 : ℚ) ≤ x * 10000 + 1/2 := by
    have := mul_nonneg hx (by norm_num : (0:ℚ) ≤ 10000)
    linarith
  exact_mod_cast Int.floor_nonneg.mpr h1

lemma round4_le_100 {x : ℚ} (hx : x ≤ 100) : round4 x ≤ 100 := by
  unfold round4
  rw [div_le_iff₀ (by norm_num : (0:ℚ) < 10000)]
  have h1 : ⌊x * 10000 + 1/2⌋ ≤ (1000000 : Int) := by
    rw [Int.floor_le_iff]
    push_cast
    have := mul_le_mul_of_nonneg_right hx (by norm_num : (0:ℚ) ≤ 10000)
    linarith
  calc ((⌊x * 10000 + 1/2⌋ : Int) : ℚ) ≤ ((1000000 : Int) : ℚ) := by exact_mod_cast h1
  _ = 100 * 10000 := by norm_num

/-- Claim C9: for a window of positive length the reported uptime
percentage lies in `[0, 100]` — the accumulated weighted downtime is
non-negative and the downtime entering the formula is clamped to the
window's total minutes. -/
theorem c9_uptime_bounded (incidents : List IncidentEntry) (componentName : String)
    (sd ed now : Int) (h : sd < ed) :
    0 ≤ (calculateComponentSLA incidents componentName sd ed now).uptimePercentage ∧
    (calculateComponentSLA incidents componentName sd ed now).uptimePercentage ≤ 100 := by
  have hup : (calculateComponentSLA incidents componentName sd ed now).uptimePercentage
      = round4 (((getTotalMinutes sd ed
            - min (weightedDowntimeOf incidents componentName sd ed now)
                (getTotalMinutes sd ed))
          / getTotalMinutes sd ed) * 100) := rfl
  set T := getTotalMinutes sd ed with hT
  set D := weightedDowntimeOf incidents componentName sd ed now with hD
  have hTpos : 0 < T := by
    rw [hT]
    unfold getTotalMinutes
    apply div_pos _ (by norm_num)
    have : (sd : ℚ) < (ed : ℚ) := by exact_mod_cast h
    linarith
  have hD0 : 0 ≤ D := weightedDowntimeOf_nonneg incidents componentName sd ed now
  have hminT : min D T ≤ T := min_le_right _ _
  have hmin0 : 0 ≤ min D T := le_min hD0 hTpos.le
  have hraw0 : 0 ≤ ((T - min D T) / T) * 100 :=
    mul_nonneg (div_nonneg (by linarith) hTpos.le) (by norm_num)
  have hraw100 : ((T - min D T) / T) * 100 ≤ 100 := by
    have hq : (T - min D T) / T ≤ 1 := by
      rw [div_le_one hTpos]
      linarith
    calc ((T - min D T) / T) * 100 ≤ 1 * 100 :=
        mul_le_mul_of_nonneg_right hq (by norm_num)
    _ = 100 := one_mul 100
  rw [hup]
  exact ⟨round4_nonneg hraw0, round4_le_100 hraw100⟩

/-- Witness for C9 on a concrete one-day window with one incident. -/
theorem c9_witness :
    0 ≤ (calculateComponentSLA [minorTestIncident] "Git Operations"
          0 86400000 86400000).uptimePercentage ∧
    (calculateComponentSLA [minorTestIncident] "Git Operations"
          0 86400000 86400000).uptimePercentage ≤ 100 :=
  c9_uptime_bounded [minorTestIncident] "Git Operations" 0 86400000 86400000 (by decide)

/-- An incident created on epoch day 500 and resolved on epoch day 1050:
its creation precedes the `[day 1000, day 1090]` window while its
resolution interval extends into it. -/
def oldOverlapIncident : IncidentEntry :=
  { id := "old-overlap-1"
    data :=
      { created_at := 43200000000
        updated_at := 90720000000
        started_at := some 43200000000
        resolved_at := some 90720000000
        status := "resolved"
        impact := "critical"
        incident_updates := []
        components := [{ name := "Pages" }] } }

/-- Claim C10: with the clock on epoch day 10000, the `[day 1000,
day 1090]` window holds no incident creation (so coverage is denied as a
historical quarter) yet the overlap filter still counts the incident —
`hasInsufficientData` and a positive `incidentCount` occur together. -/
theorem c10_insufficient_data_with_positive_incident_count :
    (calculateComponentSLA [oldOverlapIncident] "Pages"
        86400000000 94176000000 864000000000).hasInsufficientData = true ∧
    0 < (calculateComponentSLA [oldOverlapIncident] "Pages"
        86400000000 94176000000 864000000000).incidentCount := by
  exact ⟨rfl, by decide⟩
